import Mathlib

/-!
Verification development for the bot-lambda interaction endpoint.

The Go sources are shallowly embedded: Go strings and byte slices become
`List Nat` byte lists, the external ed25519 primitive, the JSON codec and
the command router are uninterpreted function parameters, and fallible Go
functions return `Option`/`Except` values mirroring their `error` results.
-/

namespace BotLambda

/-- Go strings and byte slices are modelled as lists of byte values. -/
abbrev Bytes := List Nat

/-- Byte list of a string literal (ASCII, matching the Go source literals). -/
def str (s : String) : Bytes := s.data.map Char.toNat

/-- Models net/textproto validHeaderFieldByte: token bytes per RFC 7230,
digits, letters and the punctuation accepted by the Go isTokenTable. -/
def validHeaderFieldByte (c : Nat) : Bool :=
  (48 ≤ c && c ≤ 57) || (65 ≤ c && c ≤ 90) || (97 ≤ c && c ≤ 122) ||
  c == 33 || c == 35 || c == 36 || c == 37 || c == 38 || c == 39 ||
  c == 42 || c == 43 || c == 45 || c == 46 || c == 94 || c == 95 ||
  c == 96 || c == 124 || c == 126

/-- Models the canonicalisation loop of net/textproto
CanonicalMIMEHeaderKey: uppercase a letter at the start or after a dash
(byte 45), lowercase every other letter. -/
def canonicalStep : List Nat → Bool → List Nat
  | [], _ => []
  | c :: rest, upper =>
    let c' :=
      if upper && (97 ≤ c && c ≤ 122) then c - 32
      else if !upper && (65 ≤ c && c ≤ 90) then c + 32
      else c
    c' :: canonicalStep rest (c' == 45)

/-- Models net/textproto CanonicalMIMEHeaderKey: a key containing an
invalid header byte is returned unchanged, otherwise it is canonicalised. -/
def canonicalMIMEHeaderKey (a : Bytes) : Bytes :=
  if a.all validHeaderFieldByte then canonicalStep a true else a

/-- Models building an http.Header with Add over the event header map and
reading it with Get: the first value whose canonical key matches the
canonical lookup key, or the empty string when no entry matches. -/
def headerGet (hs : List (Bytes × Bytes)) (k : Bytes) : Bytes :=
  match hs.find? (fun p => canonicalMIMEHeaderKey p.1 == canonicalMIMEHeaderKey k) with
  | some p => p.2
  | none => []

/-- Header name constant headerSignature from endpoint.go. -/
def headerSignature : Bytes := str "X-Signature-Ed25519"

/-- Header name constant headerTimestamp from endpoint.go. -/
def headerTimestamp : Bytes := str "X-Signature-Timestamp"

/-- Error values of encoding/hex reachable from DecodeString. -/
inductive HexError where
  | invalidByte (b : Nat)
  | oddLength
deriving DecidableEq

/-- Models encoding/hex fromHexChar. -/
def fromHexChar (c : Nat) : Option Nat :=
  if 48 ≤ c && c ≤ 57 then some (c - 48)
  else if 97 ≤ c && c ≤ 102 then some (c - 97 + 10)
  else if 65 ≤ c && c ≤ 70 then some (c - 65 + 10)
  else none

/-- Models encoding/hex DecodeString: bytes are decoded pairwise from the
left, the first invalid byte is reported, and a trailing valid nibble on an
odd-length input is reported as the odd length error. -/
def hexDecode : Bytes → Except HexError Bytes
  | [] => .ok []
  | [c] =>
    match fromHexChar c with
    | none => .error (.invalidByte c)
    | some _ => .error .oddLength
  | a :: b :: rest =>
    match fromHexChar a with
    | none => .error (.invalidByte a)
    | some x =>
      match fromHexChar b with
      | none => .error (.invalidByte b)
      | some y =>
        match hexDecode rest with
        | .error e => .error e
        | .ok tl => .ok ((x * 16 + y) :: tl)

/-- Message text of the hex errors (the invalid byte is carried directly
rather than through the %#U rune formatting of the Go library). -/
def hexErrorMessage : HexError → Bytes
  | .invalidByte b => str "encoding/hex: invalid byte: " ++ [b]
  | .oddLength => str "encoding/hex: odd length hex string"

/-- The four error values produced by Endpoint.verify. -/
inductive VerifyError where
  | missingSignature
  | missingTimestamp
  | invalidEncoding (e : HexError)
  | invalidSignature
deriving DecidableEq

/-- Message text of each verify error, mirroring the Go error strings;
the hex decode failure is wrapped with fmt.Errorf("invalid signature: %w"). -/
def errorMessage : VerifyError → Bytes
  | .missingSignature => str "missing header X-Signature-Ed25519"
  | .missingTimestamp => str "missing header X-Signature-Timestamp"
  | .invalidEncoding e => str "invalid signature: " ++ hexErrorMessage e
  | .invalidSignature => str "invalid signature"

/-- Models Endpoint.verify. The ed25519 primitive is an uninterpreted
parameter ed taking the public key, the message and the signature. A none
result models a nil Go error. The signed message is the timestamp header
bytes followed by the body bytes, exactly as in
append([]byte(ts), body...). -/
def verify (ed : Bytes → Bytes → Bytes → Bool) (publicKey : Bytes)
    (headers : List (Bytes × Bytes)) (body : Bytes) : Option VerifyError :=
  if publicKey.length = 0 then
    none
  else if headerGet headers headerSignature = [] then
    some .missingSignature
  else if headerGet headers headerTimestamp = [] then
    some .missingTimestamp
  else
    match hexDecode (headerGet headers headerSignature) with
    | .error e => some (.invalidEncoding e)
    | .ok sig =>
      if ed publicKey (headerGet headers headerTimestamp ++ body) sig then
        none
      else
        some .invalidSignature

/-- Models a discordgo.Session; only the Token field (the credential used
to authenticate REST calls) is observable to this pipeline. -/
structure Session where
  token : String
deriving DecidableEq

/-- Models discordgo.New, which builds a session whose Token is the given
authentication string (its error result is always nil and the Go code
discards it). -/
def discordgoNew (auth : String) : Session := ⟨auth⟩

/-- Models a decoded discordgo.InteractionCreate; only the Token field is
read by this pipeline, the rest is routed opaquely. -/
structure Interaction where
  token : String
deriving DecidableEq

/-- Models the Endpoint configuration together with its external
collaborators: ed is the ed25519 primitive, provider the result of
invoking the configured session provider for this request (none when no
provider is configured), router is Router.HandleWithContext, and
unmarshal and marshal are the encoding/json codec on interaction bodies
and responses. The response type is an opaque parameter. -/
structure EndpointModel (ρ : Type) where
  publicKey : Bytes
  ed : Bytes → Bytes → Bytes → Bool
  provider : Option (Except String Session)
  router : Session → Interaction → Option ρ
  unmarshal : Bytes → Except String (Option Interaction)
  marshal : ρ → Except String Bytes

/-- Result of Endpoint.handleInteraction: an optional synchronous
response, a Go error, or a nil-pointer fault (the Go code dereferences
i.Type before any nil check, so a nil interaction faults). -/
inductive InteractionOutcome (ρ : Type) where
  | ok (r : Option ρ)
  | err (m : String)
  | nilFault

/-- Models Endpoint.handleInteraction: with a configured provider the
provider result is used (errors wrapped with "get session from source: ",
no fallback); otherwise an ad-hoc session is built from the interaction
token via discordgo.New("Bot " + i.Token). A nil interaction faults on
the first field access. -/
def handleInteraction {ρ : Type} (e : EndpointModel ρ) (i : Option Interaction) :
    InteractionOutcome ρ :=
  match i with
  | none => .nilFault
  | some i =>
    match e.provider with
    | some (.ok s) => .ok (e.router s i)
    | some (.error m) => .err ("get session from source: " ++ m)
    | none => .ok (e.router (discordgoNew ("Bot " ++ i.token)) i)

/-- Result of Endpoint.handle, mirroring its (body, statusCode, error)
triple: res carries a response with a nil error, err a non-nil invocation
error, and fault a nil-pointer panic. -/
inductive HandleOutcome where
  | res (body : Bytes) (code : Nat)
  | err (m : String)
  | fault
deriving DecidableEq

/-- Models Endpoint.handle: verify, then unmarshal the interaction, then
handleInteraction, then shape the response (202 with empty body for a nil
response, 200 with the marshalled body otherwise). -/
def handle {ρ : Type} (e : EndpointModel ρ) (headers : List (Bytes × Bytes))
    (body : Bytes) : HandleOutcome :=
  match verify e.ed e.publicKey headers body with
  | some _ => .res [] 401
  | none =>
    match e.unmarshal body with
    | .error m => .err ("unmarshal interaction create: " ++ m)
    | .ok i =>
      match handleInteraction e i with
      | .nilFault => .fault
      | .err m => .err m
      | .ok none => .res [] 202
      | .ok (some r) =>
        match e.marshal r with
        | .error m => .err ("marshal interaction response: " ++ m)
        | .ok bs => .res bs 200

/-- Models events.LambdaFunctionURLRequest: the method under
RequestContext.HTTP.Method, the header map and the body. -/
structure LambdaFunctionURLRequest where
  method : Bytes
  headers : List (Bytes × Bytes)
  body : Bytes

/-- Models events.APIGatewayProxyRequest: the method under
RequestContext.HTTPMethod, the header map and the body. -/
structure APIGatewayProxyRequest where
  httpMethod : Bytes
  headers : List (Bytes × Bytes)
  body : Bytes

/-- Result of a public entry point, mirroring its (response, error) pair:
res carries statusCode and body with a nil error, err a non-nil
invocation error, and fault a nil-pointer panic. -/
inductive EntryOutcome where
  | res (code : Nat) (body : Bytes)
  | err (m : String)
  | fault
deriving DecidableEq

/-- Lifts the pipeline outcome into the transport response, as both entry
points do when building their response struct. -/
def liftOutcome : HandleOutcome → EntryOutcome
  | .res body code => .res code body
  | .err m => .err m
  | .fault => .fault

/-- Models Endpoint.HandleRequest (Lambda function URL entry point): a
non-POST method is rejected with status 405 before anything else runs. -/
def HandleRequest {ρ : Type} (e : EndpointModel ρ) (ev : LambdaFunctionURLRequest) :
    EntryOutcome :=
  if ev.method ≠ str "POST" then .res 405 []
  else liftOutcome (handle e ev.headers ev.body)

/-- Models Endpoint.HandleEvent (API Gateway proxy entry point): a
non-POST method is rejected with status 405 before anything else runs. -/
def HandleEvent {ρ : Type} (e : EndpointModel ρ) (ev : APIGatewayProxyRequest) :
    EntryOutcome :=
  if ev.httpMethod ≠ str "POST" then .res 405 []
  else liftOutcome (handle e ev.headers ev.body)

/-- Models the single-entry-point variant Endpoint.Handle of endpoint.go
(package lambda revision): no method check, verify failure yields 401,
unmarshal and marshal errors are returned unwrapped. -/
def Handle {ρ : Type} (e : EndpointModel ρ) (ev : LambdaFunctionURLRequest) :
    EntryOutcome :=
  match verify e.ed e.publicKey ev.headers ev.body with
  | some _ => .res 401 []
  | none =>
    match e.unmarshal ev.body with
    | .error m => .err m
    | .ok i =>
      match handleInteraction e i with
      | .nilFault => .fault
      | .err m => .err m
      | .ok none => .res 202 []
      | .ok (some r) =>
        match e.marshal r with
        | .error m => .err m
        | .ok bs => .res 200 bs

/-- Models sessionprovider.ParamStore applied to one invocation: store is
the secretlamb parameter client (GetWithDecryption), returning either a
transport error or an optional parameter value (none models a nil output
struct). The second component counts store calls, so that the empty-name
fast path is provably network-free. -/
def ParamStore (store : String → Except String (Option String)) (paramName : String) :
    Except String Session × Nat :=
  if paramName = "" then
    (.error "empty discord token paramstore parameter name", 0)
  else
    match store paramName with
    | .error e => (.error e, 1)
    | .ok p =>
      match p with
      | none => (.error "parameter empty", 1)
      | some v =>
        if v = "" then (.error "parameter empty", 1)
        else (.ok (discordgoNew ("Bot " ++ v)), 1)

/-- Models sessionprovider.Static: always returns the given session. -/
def Static (s : Session) : Except String Session := .ok s

/-- A provider result as seen by sessionprovider.Cached: a possibly nil
session together with a possibly nil error, as returned by the wrapped
Go Provider. -/
abbrev ProviderResult := Option Session × Option String

/-- State of one Cached provider instance together with its observable
call history: the results returned so far, the memoised pair guarded by
the sync.Once gate, and the number of invocations of the wrapped
provider. -/
structure CachedTrace where
  results : List ProviderResult
  memo : Option ProviderResult
  calls : Nat
deriving DecidableEq

/-- One call through sessionprovider.Cached. The sync.Once gate makes the
resolve-and-store step atomic, so every interleaving of concurrent calls
is equivalent to a sequence of these steps. The wrapped provider is a
function of its invocation index, so a re-invocation would be
observable. The Go code resolves under context.Background, independent of
the calling request, which the model elides along with contexts. -/
def cachedStep (f : Nat → ProviderResult) (t : CachedTrace) : CachedTrace :=
  match t.memo with
  | some r => { t with results := t.results ++ [r] }
  | none =>
    { results := t.results ++ [f t.calls], memo := some (f t.calls), calls := t.calls + 1 }

/-- A sequence of n calls through one Cached provider instance, starting
from the unresolved state. -/
def cachedRun (f : Nat → ProviderResult) : Nat → CachedTrace
  | 0 => ⟨[], none, 0⟩
  | n + 1 => cachedStep f (cachedRun f n)

instance exceptDecEq {ε α : Type} [DecidableEq ε] [DecidableEq α] :
    DecidableEq (Except ε α) := fun
  | .ok a, .ok b =>
    if h : a = b then .isTrue (by rw [h])
    else .isFalse (by intro hEq; cases hEq; exact h rfl)
  | .ok _, .error _ => .isFalse (by intro h; cases h)
  | .error _, .ok _ => .isFalse (by intro h; cases h)
  | .error a, .error b =>
    if h : a = b then .isTrue (by rw [h])
    else .isFalse (by intro hEq; cases hEq; exact h rfl)

/-- A concrete stand-in for the ed25519 primitive used by witnesses: it
accepts exactly the message [49, 50] with the signature [0]. -/
def edExample : Bytes → Bytes → Bytes → Bool :=
  fun _ m s => m == [49, 50] && s == [0]

/-- Concrete headers used by witnesses: signature header "00" (hex for
the byte 0) and timestamp header "1" (the byte 49). -/
def headersExample : List (Bytes × Bytes) :=
  [(str "X-Signature-Ed25519", str "00"), (str "X-Signature-Timestamp", [49])]

/-- A concrete endpoint configuration used by witnesses. Its unmarshal
models the encoding/json behaviour on interaction bodies: the body
"null" decodes to a nil interaction with a nil error, anything else to a
fixed interaction. -/
def endpointExample : EndpointModel Nat :=
  { publicKey := [1]
    ed := edExample
    provider := none
    router := fun _ _ => none
    unmarshal := fun bs => if bs = str "null" then .ok none else .ok (some ⟨"tok"⟩)
    marshal := fun n => .ok [n] }

/-- A concrete parameter store used by witnesses: it knows "foo" with
value "bar" and reports a transport error for everything else. -/
def storeExample : String → Except String (Option String) :=
  fun n =>
    if n = "foo" then .ok (some "bar")
    else .error "failed to get parameter - http request error"

/-- A concrete wrapped provider used by witnesses: a re-invocation would
be observable through the error component. -/
def cachedExample : Nat → ProviderResult :=
  fun k => (some ⟨"Bot 1"⟩, if k = 0 then none else some "re-invoked")

/-! ## Theorems -/

/-- Setting a position of a list to a value different from the one it
holds yields a different list. -/
theorem set_get_ne (l : List Nat) (i : Fin l.length) (a : Nat) (ha : a ≠ l.get i) :
    l.set i a ≠ l := by
  intro hEq
  apply ha
  have h1 : (l.set i a)[(i : Nat)]? = some a := by simp [List.getElem?_set, i.isLt]
  rw [hEq] at h1
  have h2 : l[(i : Nat)]? = some (l.get i) := by simp [List.getElem?_eq_getElem, i.isLt]
  rw [h1] at h2
  exact Option.some.inj h2

/-- After at least one call, a Cached provider instance is resolved with
the value of the single first invocation, the wrapped provider has been
invoked exactly once, and every result so far equals that value. -/
theorem cachedRun_state (f : Nat → ProviderResult) :
    ∀ n, 1 ≤ n →
      (cachedRun f n).memo = some (f 0) ∧ (cachedRun f n).calls = 1 ∧
      (cachedRun f n).results = List.replicate n (f 0)
  | 1, _ => by simp [cachedRun, cachedStep, List.replicate]
  | n + 2, _ => by
    obtain ⟨h1, h2, h3⟩ := cachedRun_state f (n + 1) (by omega)
    have e1 : cachedRun f (n + 2) = cachedStep f (cachedRun f (n + 1)) := rfl
    rw [e1]
    unfold cachedStep
    rw [h1]
    refine ⟨rfl, h2, ?_⟩
    show (cachedRun f (n + 1)).results ++ [f 0] = List.replicate (n + 2) (f 0)
    rw [h3, ← List.replicate_succ']

/-- C2: with an empty (zero-length) public key, verify succeeds
unconditionally, for every header map and body, regardless of the
underlying signature primitive. -/
theorem c2_empty_key_verifies_unconditionally (ed : Bytes → Bytes → Bytes → Bool)
    (headers : List (Bytes × Bytes)) (body : Bytes) :
    verify ed [] headers body = none := by
  simp [verify]

/-- C5: over any sequence of at least one call through a Cached provider
instance, the wrapped provider is invoked exactly once (by the first
call), and every call returns the identical (session, error) pair of
that single invocation; in particular a resolution error is returned to
all later callers with no retry. -/
theorem c5_cached_resolves_exactly_once (f : Nat → ProviderResult) (n : Nat)
    (h : 1 ≤ n) :
    (cachedRun f n).calls = 1 ∧ ∀ r ∈ (cachedRun f n).results, r = f 0 := by
  have hs := cachedRun_state f n h
  refine ⟨hs.2.1, ?_⟩
  intro r hr
  rw [hs.2.2] at hr
  exact List.eq_of_mem_replicate hr

/-- Witness for C5 at a concrete wrapped provider and three calls. -/
theorem c5_witness :
    (cachedRun cachedExample 3).calls = 1 ∧
    (cachedRun cachedExample 3).results =
      [(some ⟨"Bot 1"⟩, none), (some ⟨"Bot 1"⟩, none), (some ⟨"Bot 1"⟩, none)] :=
  ⟨(c5_cached_resolves_exactly_once cachedExample 3 (by decide)).1, by decide⟩

/-- C6: the ParamStore provider rejects an empty parameter name with a
descriptive error and no store call; a store value "bar" for name "foo"
yields a session whose token is "Bot bar"; a successful but empty value
(or a nil output) is a "parameter empty" error; a transport error is
propagated. -/
theorem c6_param_store_behaviour (store : String → Except String (Option String)) :
    (∀ store2 : String → Except String (Option String),
        ParamStore store2 "" = (.error "empty discord token paramstore parameter name", 0))
    ∧ (store "foo" = .ok (some "bar") → ParamStore store "foo" = (.ok ⟨"Bot bar"⟩, 1))
    ∧ (∀ name, name ≠ "" → store name = .ok (some "") →
        ParamStore store name = (.error "parameter empty", 1))
    ∧ (∀ name, name ≠ "" → store name = .ok none →
        ParamStore store name = (.error "parameter empty", 1))
    ∧ (∀ name msg, name ≠ "" → store name = .error msg →
        ParamStore store name = (.error msg, 1)) := by
  refine ⟨fun store2 => by simp [ParamStore], ?_, ?_, ?_, ?_⟩
  · intro h
    simp [ParamStore, h, discordgoNew]
  · intro name hn h
    simp [ParamStore, hn, h]
  · intro name hn h
    simp [ParamStore, hn, h]
  · intro name msg hn h
    simp [ParamStore, hn, h]

/-- Witness for C6 at the concrete store. -/
theorem c6_witness :
    ParamStore storeExample "" = (.error "empty discord token paramstore parameter name", 0)
    ∧ ParamStore storeExample "foo" = (.ok ⟨"Bot bar"⟩, 1)
    ∧ ParamStore storeExample "baz" =
        (.error "failed to get parameter - http request error", 1) := by
  have h := c6_param_store_behaviour storeExample
  exact ⟨h.1 storeExample, h.2.1 (by decide),
    h.2.2.2.2 "baz" "failed to get parameter - http request error" (by decide) (by decide)⟩

/-- C7: with a non-empty public key, the three pre-verification failure
modes of verify produce distinct, individually named errors (missing
signature header, missing timestamp header, invalid signature encoding),
and the encoding error is distinct, both as a value and as a message,
from the cryptographic-mismatch "invalid signature" error. -/
theorem c7_preverification_errors_distinct (ed : Bytes → Bytes → Bytes → Bool)
    (pk : Bytes) (headers : List (Bytes × Bytes)) (body : Bytes) (hpk : pk ≠ []) :
    (headerGet headers headerSignature = [] →
        verify ed pk headers body = some .missingSignature)
    ∧ (headerGet headers headerSignature ≠ [] → headerGet headers headerTimestamp = [] →
        verify ed pk headers body = some .missingTimestamp)
    ∧ (∀ he, headerGet headers headerSignature ≠ [] →
        headerGet headers headerTimestamp ≠ [] →
        hexDecode (headerGet headers headerSignature) = .error he →
        verify ed pk headers body = some (.invalidEncoding he))
    ∧ (∀ he, VerifyError.missingSignature ≠ VerifyError.missingTimestamp
        ∧ VerifyError.invalidEncoding he ≠ VerifyError.missingSignature
        ∧ VerifyError.invalidEncoding he ≠ VerifyError.missingTimestamp
        ∧ VerifyError.invalidEncoding he ≠ VerifyError.invalidSignature
        ∧ errorMessage (.invalidEncoding he) ≠ errorMessage .invalidSignature
        ∧ errorMessage .missingSignature ≠ errorMessage .missingTimestamp) := by
  have hl : ¬ pk.length = 0 := by simpa [List.length_eq_zero] using hpk
  refine ⟨?_, ?_, ?_, ?_⟩
  · intro h
    simp only [verify]
    rw [if_neg hl, if_pos h]
  · intro h1 h2
    simp only [verify]
    rw [if_neg hl, if_neg h1, if_pos h2]
  · intro he h1 h2 hdec
    simp only [verify]
    rw [if_neg hl, if_neg h1, if_neg h2, hdec]
  · intro he
    refine ⟨by simp, by simp, by simp, by simp, ?_, by decide⟩
    intro hEq
    have hLen := congrArg List.length hEq
    have l1 : (str "invalid signature: ").length = 19 := by decide
    have l2 : (str "invalid signature").length = 17 := by decide
    cases he with
    | invalidByte b =>
      have l5 : (str "encoding/hex: invalid byte: ").length = 28 := by decide
      simp only [errorMessage, hexErrorMessage, List.length_append, List.length_cons,
        List.length_nil] at hLen
      rw [l1, l2, l5] at hLen
      omega
    | oddLength =>
      have l6 : (str "encoding/hex: odd length hex string").length = 35 := by decide
      simp only [errorMessage, hexErrorMessage, List.length_append] at hLen
      rw [l1, l2, l6] at hLen
      omega

/-- Witness for C7 at a non-empty key and headers missing the signature
header. -/
theorem c7_witness :
    verify edExample [1] [] [] = some .missingSignature ∧
    verify edExample [1] [(str "X-Signature-Ed25519", str "zz")] [] =
      some .missingTimestamp :=
  ⟨(c7_preverification_errors_distinct edExample [1] [] [] (by decide)).1 (by decide),
    (c7_preverification_errors_distinct edExample [1]
      [(str "X-Signature-Ed25519", str "zz")] [] (by decide)).2.1 (by decide) (by decide)⟩

/-- C9: exactly one session source is used per request: with a configured
provider, its session is dispatched and a provider error is propagated
wrapped with "get session from source: " with no fallback; without one,
an ad-hoc session built as "Bot " plus the interaction token is
dispatched. -/
theorem c9_exactly_one_session_source {ρ : Type} (e : EndpointModel ρ)
    (i : Interaction) :
    (∀ s, e.provider = some (.ok s) →
        handleInteraction e (some i) = .ok (e.router s i))
    ∧ (∀ m, e.provider = some (.error m) →
        handleInteraction e (some i) = .err ("get session from source: " ++ m))
    ∧ (e.provider = none →
        handleInteraction e (some i) = .ok (e.router (discordgoNew ("Bot " ++ i.token)) i)) := by
  refine ⟨?_, ?_, ?_⟩
  · intro s h
    simp [handleInteraction, h]
  · intro m h
    simp [handleInteraction, h]
  · intro h
    simp [handleInteraction, h]

/-- Witness for C9 at concrete endpoints: a failing provider propagates
the wrapped error and a missing provider dispatches the ad-hoc token
session. -/
theorem c9_witness :
    handleInteraction { endpointExample with provider := some (.error "boom") }
      (some ⟨"tok"⟩) = .err ("get session from source: " ++ "boom")
    ∧ handleInteraction endpointExample (some ⟨"tok"⟩) =
        .ok (endpointExample.router (discordgoNew ("Bot " ++ "tok")) ⟨"tok"⟩) :=
  ⟨(c9_exactly_one_session_source
      { endpointExample with provider := some (.error "boom") } ⟨"tok"⟩).2.1 "boom" rfl,
    (c9_exactly_one_session_source endpointExample ⟨"tok"⟩).2.2 rfl⟩

/-- C3: whenever verify fails, for any of its failure reasons, the
pipeline returns status 401 with an empty body and a nil error; the
outcome is independent of the JSON decoder, so the body is never decoded
as an interaction; both the two-entry-point pipeline (via HandleRequest
on a POST envelope) and the single-entry-point Handle variant behave this
way. -/
theorem c3_verify_failure_yields_401 {ρ : Type} (e : EndpointModel ρ)
    (headers : List (Bytes × Bytes)) (body : Bytes) (er : VerifyError)
    (hv : verify e.ed e.publicKey headers body = some er) :
    handle e headers body = .res [] 401
    ∧ (∀ u, handle { e with unmarshal := u } headers body = .res [] 401)
    ∧ HandleRequest e ⟨str "POST", headers, body⟩ = .res 401 []
    ∧ (∀ m, Handle e ⟨m, headers, body⟩ = .res 401 []) := by
  refine ⟨by simp [handle, hv], ?_, ?_, ?_⟩
  · intro u
    simp [handle, hv]
  · simp [HandleRequest, handle, hv, liftOutcome]
  · intro m
    simp [Handle, hv]

/-- Witness for C3 at a concrete endpoint whose request misses the
signature header. -/
theorem c3_witness :
    handle endpointExample [] [] = .res [] 401
    ∧ HandleRequest endpointExample ⟨str "POST", [], []⟩ = .res 401 [] :=
  ⟨(c3_verify_failure_yields_401 endpointExample [] [] .missingSignature (by decide)).1,
    (c3_verify_failure_yields_401 endpointExample [] [] .missingSignature
      (by decide)).2.2.1⟩

/-- C4: every envelope whose method is not POST is rejected by its entry
point with status 405, an empty body and a nil error; the outcome is
independent of the whole endpoint configuration (so neither verification
nor decoding can have run), and the two entry points behave
identically. -/
theorem c4_non_post_rejected {ρ : Type} (e e2 : EndpointModel ρ)
    (ev : LambdaFunctionURLRequest) (gv : APIGatewayProxyRequest)
    (h1 : ev.method ≠ str "POST") (h2 : gv.httpMethod ≠ str "POST") :
    HandleRequest e ev = .res 405 []
    ∧ HandleEvent e gv = .res 405 []
    ∧ HandleRequest e ev = HandleRequest e2 ev
    ∧ HandleEvent e gv = HandleEvent e2 gv := by
  refine ⟨by simp [HandleRequest, h1], by simp [HandleEvent, h2], ?_, ?_⟩
  · simp [HandleRequest, h1]
  · simp [HandleEvent, h2]

/-- Witness for C4 at concrete GET envelopes and two different endpoint
configurations. -/
theorem c4_witness :
    HandleRequest endpointExample ⟨str "GET", headersExample, [50]⟩ = .res 405 []
    ∧ HandleEvent endpointExample ⟨str "GET", headersExample, [50]⟩ = .res 405 []
    ∧ HandleRequest endpointExample ⟨str "GET", headersExample, [50]⟩ =
        HandleRequest { endpointExample with publicKey := [] }
          ⟨str "GET", headersExample, [50]⟩ := by
  have h := c4_non_post_rejected endpointExample
    { endpointExample with publicKey := [] }
    ⟨str "GET", headersExample, [50]⟩ ⟨str "GET", headersExample, [50]⟩
    (by decide) (by decide)
  exact ⟨h.1, h.2.1, h.2.2.1⟩

/-- C8: for a verified request whose body decodes to an interaction and
whose session resolves, a nil router response yields status 202 with an
empty body and nil error, a non-nil response is marshalled and returned
with status 200, and a marshal failure becomes an invocation error, not
an HTTP status. -/
theorem c8_response_shaping {ρ : Type} (e : EndpointModel ρ)
    (headers : List (Bytes × Bytes)) (body : Bytes) (i : Interaction) (s : Session)
    (hv : verify e.ed e.publicKey headers body = none)
    (hu : e.unmarshal body = .ok (some i))
    (hs : e.provider = some (.ok s)
        ∨ (e.provider = none ∧ s = discordgoNew ("Bot " ++ i.token))) :
    (e.router s i = none → handle e headers body = .res [] 202)
    ∧ (∀ r bs, e.router s i = some r → e.marshal r = .ok bs →
        handle e headers body = .res bs 200)
    ∧ (∀ r m, e.router s i = some r → e.marshal r = .error m →
        handle e headers body = .err ("marshal interaction response: " ++ m)) := by
  refine ⟨?_, ?_, ?_⟩
  · intro hr
    rcases hs with h | ⟨h, hsEq⟩
    · simp [handle, handleInteraction, hv, hu, h, hr]
    · subst hsEq
      simp [handle, handleInteraction, hv, hu, h, hr]
  · intro r bs hr hm
    rcases hs with h | ⟨h, hsEq⟩
    · simp [handle, handleInteraction, hv, hu, h, hr, hm]
    · subst hsEq
      simp [handle, handleInteraction, hv, hu, h, hr, hm]
  · intro r m hr hm
    rcases hs with h | ⟨h, hsEq⟩
    · simp [handle, handleInteraction, hv, hu, h, hr, hm]
    · subst hsEq
      simp [handle, handleInteraction, hv, hu, h, hr, hm]

/-- Witness for C8 at a concrete verified request whose handler returns
no reply. -/
theorem c8_witness :
    handle { endpointExample with publicKey := [] } [] [42] = .res [] 202 :=
  (c8_response_shaping { endpointExample with publicKey := [] } [] [42]
    ⟨"tok"⟩ (discordgoNew ("Bot " ++ "tok")) (by decide) (by decide)
    (Or.inr ⟨rfl, rfl⟩)).1 rfl

/-- C10: a body that passes verification and unmarshals without error to
a nil interaction (as the JSON literal null does under encoding/json) is
passed to handleInteraction as nil, whose unconditional field access is a
nil-pointer fault: the pipeline faults instead of returning a response or
an error. -/
theorem c10_null_body_nil_dereference {ρ : Type} (e : EndpointModel ρ)
    (headers : List (Bytes × Bytes)) (body : Bytes)
    (hv : verify e.ed e.publicKey headers body = none)
    (hu : e.unmarshal body = .ok none) :
    handle e headers body = .fault
    ∧ handleInteraction e none = InteractionOutcome.nilFault := by
  refine ⟨?_, rfl⟩
  simp [handle, handleInteraction, hv, hu]

/-- Witness for C10: the concrete body "null" with verification disabled
faults. -/
theorem c10_witness :
    handle { endpointExample with publicKey := [] } [] (str "null") = .fault :=
  (c10_null_body_nil_dereference { endpointExample with publicKey := [] } []
    (str "null") (by decide) (by decide)).1

/-- Evaluation of verify once the gating conditions hold: with a
non-empty key, both headers present and the signature hex-decoding, the
result is exactly the ed25519 check over timestamp plus body. -/
theorem verify_reduces (ed : Bytes → Bytes → Bytes → Bool) (pk : Bytes)
    (hpk : pk ≠ []) (hs2 : List (Bytes × Bytes)) (b2 ts2 sx2 sg2 : Bytes)
    (h1 : headerGet hs2 headerSignature = sx2) (h2 : sx2 ≠ [])
    (h3 : headerGet hs2 headerTimestamp = ts2) (h4 : ts2 ≠ [])
    (h5 : hexDecode sx2 = .ok sg2) :
    verify ed pk hs2 b2 =
      if ed pk (ts2 ++ b2) sg2 then none else some .invalidSignature := by
  have hl : ¬ pk.length = 0 := by simpa [List.length_eq_zero] using hpk
  simp only [verify]
  rw [h1, h3, h5, if_neg hl, if_neg h2, if_neg h4]

/-- C1: with a non-empty public key, both headers present and the
signature header hex-decoding, verify succeeds exactly when the ed25519
primitive accepts the decoded signature over the timestamp bytes followed
by the body bytes with no delimiter; and, provided the primitive accepts
only that exact message and signature, changing any single byte of the
body, of the timestamp, or of the decoded signature makes verify fail. -/
theorem c1_verify_signed_message_and_flip_sensitivity
    (ed : Bytes → Bytes → Bytes → Bool) (pk : Bytes)
    (headers : List (Bytes × Bytes)) (body ts sigHex sig : Bytes)
    (hpk : pk ≠ [])
    (hsig : headerGet headers headerSignature = sigHex)
    (hsig0 : sigHex ≠ [])
    (hts : headerGet headers headerTimestamp = ts)
    (hts0 : ts ≠ [])
    (hdec : hexDecode sigHex = .ok sig) :
    (verify ed pk headers body = none ↔ ed pk (ts ++ body) sig = true)
    ∧ ((∀ m σ, ed pk m σ = true → m = ts ++ body ∧ σ = sig) →
        (∀ (i : Fin body.length) (b : Nat), b ≠ body.get i →
            verify ed pk headers (body.set i b) = some .invalidSignature)
        ∧ (∀ (headers2 : List (Bytes × Bytes)) (j : Fin ts.length) (c : Nat),
            c ≠ ts.get j →
            headerGet headers2 headerSignature = sigHex →
            headerGet headers2 headerTimestamp = ts.set j c →
            verify ed pk headers2 body = some .invalidSignature)
        ∧ (∀ (headers3 : List (Bytes × Bytes)) (sigHex3 : Bytes)
            (k : Fin sig.length) (d : Nat),
            d ≠ sig.get k →
            headerGet headers3 headerSignature = sigHex3 →
            sigHex3 ≠ [] →
            headerGet headers3 headerTimestamp = ts →
            hexDecode sigHex3 = .ok (sig.set k d) →
            verify ed pk headers3 body = some .invalidSignature)) := by
  constructor
  · rw [verify_reduces ed pk hpk headers body ts sigHex sig hsig hsig0 hts hts0 hdec]
    by_cases h : ed pk (ts ++ body) sig <;> simp [h]
  · intro hsound
    refine ⟨?_, ?_, ?_⟩
    · intro i b hb
      have hedf : ed pk (ts ++ body.set i b) sig = false := by
        cases hx : ed pk (ts ++ body.set (i : Nat) b) sig with
        | false => rfl
        | true =>
          obtain ⟨hm, _⟩ := hsound _ _ hx
          exact absurd (List.append_cancel_left hm) (set_get_ne body i b hb)
      rw [verify_reduces ed pk hpk headers (body.set i b) ts sigHex sig
        hsig hsig0 hts hts0 hdec, hedf]
      simp
    · intro headers2 j c hc h2sig h2ts
      have hts2ne : ts.set j c ≠ [] := by
        apply List.ne_nil_of_length_pos
        rw [List.length_set]
        exact List.length_pos.mpr hts0
      have hedf : ed pk (ts.set j c ++ body) sig = false := by
        cases hx : ed pk (ts.set (j : Nat) c ++ body) sig with
        | false => rfl
        | true =>
          obtain ⟨hm, _⟩ := hsound _ _ hx
          have hlen : (ts.set (j : Nat) c).length = ts.length := List.length_set ts j c
          exact absurd (List.append_inj_left hm hlen) (set_get_ne ts j c hc)
      rw [verify_reduces ed pk hpk headers2 body (ts.set j c) sigHex sig
        h2sig hsig0 h2ts hts2ne hdec, hedf]
      simp
    · intro headers3 sigHex3 k d hd h3sig h3ne h3ts hdec3
      have hedf : ed pk (ts ++ body) (sig.set k d) = false := by
        cases hx : ed pk (ts ++ body) (sig.set (k : Nat) d) with
        | false => rfl
        | true =>
          obtain ⟨_, hσ⟩ := hsound _ _ hx
          exact absurd hσ (set_get_ne sig k d hd)
      rw [verify_reduces ed pk hpk headers3 body ts sigHex3 (sig.set k d)
        h3sig h3ne h3ts hts0 hdec3, hedf]
      simp

/-- Witness for C1: the concrete primitive accepts exactly the message
built from timestamp byte 49 and body byte 50 with signature byte 0;
verification succeeds there and fails after flipping the body byte. -/
theorem c1_witness :
    verify edExample [1] headersExample [50] = none
    ∧ verify edExample [1] headersExample [99] = some .invalidSignature := by
  have hsound : ∀ m σ, edExample [1] m σ = true → m = [49] ++ [50] ∧ σ = [0] := by
    intro m σ h
    simp only [edExample, Bool.and_eq_true, beq_iff_eq] at h
    simpa using h
  have h := c1_verify_signed_message_and_flip_sensitivity edExample [1] headersExample
    [50] [49] (str "00") [0] (by decide) (by decide) (by decide) (by decide)
    (by decide) rfl
  refine ⟨h.1.mpr (by decide), ?_⟩
  exact (h.2 hsound).1 ⟨0, by decide⟩ 99 (by decide)

end BotLambda
